import Mathlib

/-!
Verification of the Plastic Waste Sorting System repository against its
natural-language specification.

The Python sources are shallowly embedded: pure computations become Lean
functions, stateful objects become explicit state records threaded through
the functions, serial writes / `print` logging / `time.sleep` become events
collected in a trace, and Python floats that are only compared (detection
confidences) become rationals.  Machine pixel values are natural numbers
(the source arrays are uint8, so all values lie in 0..255).
-/

namespace PlasticWasteSorting

/-! ## Robotic arm — robotic_arm.py -/

/-- The static bin registry `self.bins` built in `RoboticArm.__init__`
(robotic_arm.py lines 9-27): composite key `"{class}_{color}"` to a fixed
(x, y) coordinate, plus the required `"unknown"` fallback entry. -/
def bins : List (String × Int × Int) :=
  [("PET_clear", 100, 200),
   ("PET_blue", 150, 200),
   ("PET_green", 200, 200),
   ("PET_white", 250, 200),
   ("PET_black", 300, 200),
   ("PET_orange", 350, 200),
   ("PET_purple", 400, 200),
   ("PET_brown", 450, 200),
   ("HDPE_clear", 500, 200),
   ("HDPE_blue", 550, 200),
   ("HDPE_green", 600, 200),
   ("HDPE_white", 650, 200),
   ("HDPE_black", 700, 200),
   ("HDPE_orange", 750, 200),
   ("HDPE_purple", 800, 200),
   ("HDPE_brown", 850, 200),
   ("unknown", 900, 200)]

/-- Dictionary lookup `self.bins.get(k)` (first matching key). -/
def binsLookup (k : String) : Option (Int × Int) :=
  (bins.find? (fun e => e.1 = k)).map (fun e => e.2)

/-- The direct keyed access `self.bins["unknown"]`.  The key is always present
in the static registry, so the `(0, 0)` default of the embedding is dead. -/
def unknownBin : Int × Int := (binsLookup "unknown").getD (0, 0)

/-- Composite key construction of `RoboticArm.pick_and_sort` (lines 57 and 65):
`bin_key = f"{cls_name}_{color}" if color != "unknown" else "unknown"`. -/
def binKey (clsName color : String) : String :=
  if color ≠ "unknown" then clsName ++ "_" ++ color else "unknown"

/-- The bin-routing decision `self.bins.get(bin_key, self.bins["unknown"])`
performed identically on the connected path (line 58) and on the simulated
path (line 66).  A total function: it always yields a coordinate. -/
def binRoute (clsName color : String) : Int × Int :=
  (binsLookup (binKey clsName color)).getD unknownBin

/-- Observable actuator events.  Sleeps are recorded in tenths of a second
(`time.sleep(1)` = 10, `time.sleep(0.5)` = 5) to keep the trace discrete. -/
inductive ArmEvent
  /-- serial write of the textual command `MOVE x y z\n` -/
  | cmdMove (x y z : Int)
  /-- serial write of the textual command `GRIP g\n` (1 = close, 0 = open) -/
  | cmdGrip (g : Nat)
  /-- `time.sleep`, in tenths of a second -/
  | sleep (tenths : Nat)
  /-- the simulated-motion log line printed by `move_to` when disconnected -/
  | simMove (x y z : Int)
  /-- the single summary log line printed by `pick_and_sort` when disconnected -/
  | simPickSort (clsName color : String) (binX binY : Int)
deriving DecidableEq, Repr

/-- `RoboticArm.move_to` (lines 38-45): when connected, write `MOVE x y z\n`
and sleep one second; when disconnected, print the simulated motion. -/
def move_to (isConnected : Bool) (x y z : Int) : List ArmEvent :=
  if isConnected then [.cmdMove x y z, .sleep 10] else [.simMove x y z]

/-- `RoboticArm.pick_and_sort` (lines 47-67).  The bin is resolved by
`binRoute` in both branches; hoisting the (pure) resolution above the
connected-path command sequence does not change the emitted trace. -/
def pick_and_sort (isConnected : Bool) (x y : Int) (clsName color : String) :
    List ArmEvent :=
  if isConnected then
    let bin := binRoute clsName color
    move_to true x y 0 ++ move_to true x y (-10) ++
    [.cmdGrip 1, .sleep 5] ++ move_to true x y 0 ++
    move_to true bin.1 bin.2 0 ++ move_to true bin.1 bin.2 (-10) ++
    [.cmdGrip 0, .sleep 5] ++ move_to true bin.1 bin.2 0
  else
    let bin := binRoute clsName color
    [.simPickSort clsName color bin.1 bin.2]

/-- The registry's fallback entry is the coordinate (900, 200). -/
theorem unknownBin_eq : unknownBin = (900, 200) := by decide

/-- The `"unknown"` key is always present in the static registry. -/
theorem binsLookup_unknown : binsLookup "unknown" = some (900, 200) := by decide

end PlasticWasteSorting

namespace PlasticWasteSorting

/-- C1: Bin routing always resolves to a coordinate: whenever the composite
key `"{classLabel}_{colorLabel}"` is absent from the bin registry the routing
returns the registry's `"unknown"` fallback coordinate, and whenever the color
label is `"unknown"` the fallback coordinate is returned regardless of class
label.  Routing is the total function `binRoute`, hence deterministic and
never failing. -/
theorem binRoute_fallback (clsName color : String)
    (habsent : binsLookup (clsName ++ "_" ++ color) = none) :
    binRoute clsName color = unknownBin ∧
    binRoute clsName "unknown" = unknownBin := by
  constructor
  · by_cases hc : color = "unknown"
    · subst hc
      simp [binRoute, binKey, unknownBin_eq, binsLookup_unknown]
    · simp [binRoute, binKey, hc, habsent]
  · simp [binRoute, binKey, unknownBin_eq, binsLookup_unknown]

/-- Witness for `binRoute_fallback`: the key `"glass_red"` is absent from the
registry and is routed to the fallback coordinate. -/
theorem binRoute_fallback_witness :
    binsLookup ("glass" ++ "_" ++ "red") = none ∧
    binRoute "glass" "red" = unknownBin ∧
    binRoute "glass" "unknown" = unknownBin :=
  ⟨by decide,
   (binRoute_fallback "glass" "red" (by decide)).1,
   (binRoute_fallback "glass" "red" (by decide)).2⟩

/-- C3 counterexample: the claim that the disconnected path records a
simulated sequence with the same step count as the connected path is false at
the concrete call `pick_and_sort 0 0 "PET" "blue"`: the disconnected path
records a single summary log line while the connected path issues sixteen
events (eight serial commands, each followed by a settle sleep). -/
theorem pick_and_sort_sim_count_ne :
    (pick_and_sort false 0 0 "PET" "blue").length = 1 ∧
    (pick_and_sort true 0 0 "PET" "blue").length = 16 ∧
    (pick_and_sort false 0 0 "PET" "blue").length ≠
      (pick_and_sort true 0 0 "PET" "blue").length := by
  refine ⟨by decide, by decide, by decide⟩

/-- C3 amended: when the arm is disconnected, `pick_and_sort` never raises (it
is a total function in the embedding, and the Python branch performs no
hardware I/O) and always records exactly one simulated summary log line that
names the class, the color, and the destination bin resolved by the same
routing as the connected path — not a step-for-step sequence of the connected
path's step count. -/
theorem pick_and_sort_disconnected (x y : Int) (clsName color : String) :
    pick_and_sort false x y clsName color =
      [ArmEvent.simPickSort clsName color
        (binRoute clsName color).1 (binRoute clsName color).2] := rfl

/-- C4: when the arm is connected, `pick_and_sort` issues exactly the fixed
choreography, in order: move above the pick point, descend, close the gripper
(GRIP 1), brief hold, ascend, then — with the destination resolved by the bin
routing — move above the bin, descend, open the gripper (GRIP 0), brief hold,
ascend; every MOVE command is followed by a one-second settle sleep and every
GRIP command by a half-second hold before the next command is issued. -/
theorem pick_and_sort_connected (x y : Int) (clsName color : String) :
    pick_and_sort true x y clsName color =
      [ArmEvent.cmdMove x y 0, ArmEvent.sleep 10,
       ArmEvent.cmdMove x y (-10), ArmEvent.sleep 10,
       ArmEvent.cmdGrip 1, ArmEvent.sleep 5,
       ArmEvent.cmdMove x y 0, ArmEvent.sleep 10,
       ArmEvent.cmdMove (binRoute clsName color).1 (binRoute clsName color).2 0,
       ArmEvent.sleep 10,
       ArmEvent.cmdMove (binRoute clsName color).1 (binRoute clsName color).2 (-10),
       ArmEvent.sleep 10,
       ArmEvent.cmdGrip 0, ArmEvent.sleep 5,
       ArmEvent.cmdMove (binRoute clsName color).1 (binRoute clsName color).2 0,
       ArmEvent.sleep 10] := rfl

end PlasticWasteSorting

namespace PlasticWasteSorting

/-! ## Camera feed — camera_feed.py -/

/-- Frames are opaque to the control flow of `get_frame`; a natural number
stands for a frame buffer. -/
abbrev Frame := Nat

/-- A `cv2.VideoCapture` opened on the fallback clip: the clip's frame list
plus the current read position (`CAP_PROP_POS_FRAMES`). -/
structure VideoCap where
  frames : List Frame
  pos : Nat
deriving DecidableEq, Repr

/-- `cap.read()`: at a position inside the clip it yields that frame and
advances; at or past the end it fails (`ret = False`) and does not advance. -/
def capRead (cap : VideoCap) : Option Frame × VideoCap :=
  match cap.frames.get? cap.pos with
  | some f => (some f, { cap with pos := cap.pos + 1 })
  | none => (none, cap)

/-- `cap.set(cv2.CAP_PROP_POS_FRAMES, 0)`: seek to the start of the clip. -/
def capSeekStart (cap : VideoCap) : VideoCap := { cap with pos := 0 }

/-- The `CameraFeed` state relevant to `get_frame` (camera_feed.py): the
connection flag, the open capture, and the static fallback image (which is
`none` while the fallback video is in use). -/
structure CameraFeedState where
  is_connected : Bool
  cap : VideoCap
  fallback_frame : Option Frame
deriving DecidableEq, Repr

/-- `CameraFeed.get_frame` (camera_feed.py lines 107-124).  Connected: a
single read, `none` on an empty read.  Fallback video: read, and on failure
seek to position zero and read once more, returning whatever that read gave.
Fallback image: return a copy of the static frame. -/
def get_frame (s : CameraFeedState) : Option Frame × CameraFeedState :=
  if s.is_connected then
    let r := capRead s.cap
    (r.1, { s with cap := r.2 })
  else
    match s.fallback_frame with
    | none =>
      let r := capRead s.cap
      match r.1 with
      | some f => (some f, { s with cap := r.2 })
      | none =>
        let r2 := capRead (capSeekStart r.2)
        (r2.1, { s with cap := r2.2 })
    | some f => (some f, s)

/-- The `CameraFeed` state after `_init_fallback` succeeded on the looping
clip: no live backend opened (`is_connected = False`), capture on the clip at
position zero, no static fallback image. -/
def fallbackState (clip : List Frame) : CameraFeedState :=
  { is_connected := false, cap := { frames := clip, pos := 0 }, fallback_frame := none }

/-- The results of `n` successive `get_frame()` calls from state `s`. -/
def callResults (s : CameraFeedState) : Nat → List (Option Frame)
  | 0 => []
  | n + 1 =>
    (get_frame s).1 :: callResults (get_frame s).2 n

/-- One fallback-video `get_frame` call on a nonempty clip always yields a
frame and preserves the fallback-video mode and the clip. -/
theorem get_frame_fallback_step (s : CameraFeedState)
    (hconn : s.is_connected = false) (himg : s.fallback_frame = none)
    (hne : s.cap.frames ≠ []) :
    (get_frame s).1.isSome = true ∧
    (get_frame s).2.is_connected = false ∧
    (get_frame s).2.fallback_frame = none ∧
    (get_frame s).2.cap.frames = s.cap.frames := by
  obtain ⟨conn, ⟨frames, pos⟩, fb⟩ := s
  replace hconn : conn = false := hconn
  replace himg : fb = none := himg
  replace hne : frames ≠ [] := hne
  subst hconn; subst himg
  cases hg : frames[pos]? with
  | some f => simp [get_frame, capRead, hg]
  | none =>
    cases frames with
    | nil => exact absurd rfl hne
    | cons a l => simp [get_frame, capRead, capSeekStart, hg]

/-- Every one of `n` successive fallback-video calls on a nonempty clip
yields a frame. -/
theorem callResults_all_isSome (n : Nat) :
    ∀ (s : CameraFeedState), s.is_connected = false → s.fallback_frame = none →
      s.cap.frames ≠ [] →
      (callResults s n).all (fun r => r.isSome) = true := by
  induction n with
  | zero => intro s _ _ _; rfl
  | succ n ih =>
    intro s hconn himg hne
    obtain ⟨h1, h2, h3, h4⟩ := get_frame_fallback_step s hconn himg hne
    simp only [callResults, List.all_cons, Bool.and_eq_true]
    refine ⟨h1, ih _ h2 h3 ?_⟩
    rw [h4]; exact hne

/-- C7: FrameSource fallback looping.  With no openable live backend and a
valid (nonempty) looping clip, for any number `n` of calls greater than the
clip's frame count, none of the `n` successive `get_frame()` results is
`none`; and a single call issued at or past end-of-stream seeks to position
zero, retries, and yields the clip's first frame (position wraps to 1). -/
theorem get_frame_looping (clip : List Frame) (n : Nat) (pos : Nat)
    (hne : clip ≠ []) (hn : clip.length < n) (hpos : clip.length ≤ pos) :
    (callResults (fallbackState clip) n).all (fun r => r.isSome) = true ∧
    (get_frame { is_connected := false, cap := { frames := clip, pos := pos },
                 fallback_frame := none }).1 = clip.head? ∧
    (get_frame { is_connected := false, cap := { frames := clip, pos := pos },
                 fallback_frame := none }).2.cap.pos = 1 := by
  refine ⟨callResults_all_isSome n _ rfl rfl hne, ?_⟩
  have hend : clip[pos]? = none := List.getElem?_eq_none hpos
  rcases clip with _ | ⟨a, l⟩
  · exact absurd rfl hne
  · constructor
    · simp [get_frame, capRead, capSeekStart, hend]
    · simp [get_frame, capRead, capSeekStart, hend]

/-- Witness for `get_frame_looping`: the one-frame clip `[7]`, two calls,
reading from position 1 (end-of-stream). -/
theorem get_frame_looping_witness :
    ([7] : List Frame) ≠ [] ∧ ([7] : List Frame).length < 2 ∧
    ([7] : List Frame).length ≤ 1 ∧
    ((callResults (fallbackState [7]) 2).all (fun r => r.isSome) = true ∧
     (get_frame { is_connected := false, cap := { frames := [7], pos := 1 },
                  fallback_frame := none }).1 = ([7] : List Frame).head? ∧
     (get_frame { is_connected := false, cap := { frames := [7], pos := 1 },
                  fallback_frame := none }).2.cap.pos = 1) :=
  ⟨by decide, by decide, by decide,
   get_frame_looping [7] 2 1 (by decide) (by decide) (by decide)⟩

end PlasticWasteSorting

namespace PlasticWasteSorting

/-! ## Object detection — object_detection.py -/

/-- One raw box of the external YOLO model's output (`result.boxes[i]`):
pixel coordinates, a confidence, and a class id.  Confidences are floats only
ever compared against 0.5, embedded as rationals. -/
structure Box where
  x1 : Int
  y1 : Int
  x2 : Int
  y2 : Int
  conf : ℚ
  clsId : Nat
deriving DecidableEq, Repr

/-- One element of the `detected_objects` list that `ObjectDetector.detect`
returns: `(class_name, (x1, y1, x2, y2), confidence)`. -/
structure Detection where
  clsName : String
  box : Int × Int × Int × Int
  conf : ℚ
deriving DecidableEq, Repr

/-- `self.model.names[class_id] if class_id < len(self.model.names) else
"unknown"` (object_detection.py line 47 and line 64). -/
def className (names : List String) (clsId : Nat) : String :=
  if clsId < names.length then names.getD clsId "unknown" else "unknown"

/-- The YOLO inference output is embedded as one entry per `result`, where
`none` models `result.boxes is None` and `some boxes` its box list. -/
abbrev YoloResults := List (Option (List Box))

/-- The detection tuple appended at object_detection.py line 54. -/
def mkDetection (names : List String) (b : Box) : Detection :=
  { clsName := className names b.clsId, box := (b.x1, b.y1, b.x2, b.y2), conf := b.conf }

/-- The first loop of `ObjectDetector.detect` (lines 37-54): skip results
whose `boxes` is `None`, skip boxes with `confidence < 0.5`, and collect the
remaining `(class_name, bbox, confidence)` tuples in iteration order. -/
def detectedObjectsOf (results : YoloResults) (names : List String) : List Detection :=
  (results.map (fun r =>
    match r with
    | none => []
    | some boxes =>
      (boxes.filter (fun b => !decide (b.conf < mkRat 1 2))).map (mkDetection names))).flatten

/-- The two return shapes of `ObjectDetector.detect`: the normal detection
list, or the single `("unknown", (x1, y1, x2, y2), roi)` triple of the
unknown-object branch (the `roi` is the frame crop at that box; its pixel
content plays no role in the control flow, so the embedding keeps the box). -/
inductive DetectOutcome
  | objects (dets : List Detection)
  | unknownObject (box : Int × Int × Int × Int)
deriving DecidableEq, Repr

/-- The second loop of `ObjectDetector.detect` (lines 59-68), reached only
when `detected_objects` is empty: walk every box again and return the first
whose class name is `"unknown"` or whose confidence is below 0.5.  Unlike the
first loop this one does not guard against `result.boxes is None`; iterating
`None` raises a `TypeError` that the surrounding `try` catches, so the call
returns `[]` (line 75).  Falling out of the loop returns the (empty)
`detected_objects` list. -/
def scanForUnknown (names : List String) : YoloResults → DetectOutcome
  | [] => .objects []
  | none :: _ => .objects []
  | some boxes :: rest =>
    match boxes.find? (fun b =>
        decide (className names b.clsId = "unknown") || decide (b.conf < mkRat 1 2)) with
    | some b => .unknownObject (b.x1, b.y1, b.x2, b.y2)
    | none => scanForUnknown names rest

/-- `ObjectDetector.detect` (object_detection.py lines 25-75), given the
external model's raw output.  A failing inference is caught by the `try` and
returns `[]`; the embedding takes the raw results as input. -/
def objectDetect (results : YoloResults) (names : List String) : DetectOutcome :=
  let dets := detectedObjectsOf results names
  if dets.isEmpty then scanForUnknown names results
  else .objects dets

/-- Whenever `scanForUnknown` returns a detection list, that list is empty. -/
theorem scanForUnknown_objects_eq_nil (names : List String) :
    ∀ (results : YoloResults) (dets : List Detection),
      scanForUnknown names results = .objects dets → dets = [] := by
  intro results
  induction results with
  | nil => intro dets h; cases h; rfl
  | cons r rest ih =>
    intro dets h
    cases r with
    | none => cases h; rfl
    | some boxes =>
      unfold scanForUnknown at h
      cases hf : boxes.find? (fun b =>
          decide (className names b.clsId = "unknown") || decide (b.conf < mkRat 1 2)) with
      | some b => rw [hf] at h; cases h
      | none => rw [hf] at h; exact ih dets h

/-- Every tuple collected by the first loop has confidence at least 0.5. -/
theorem detectedObjectsOf_all_conf (results : YoloResults) (names : List String) :
    (detectedObjectsOf results names).all
      (fun d => decide (mkRat 1 2 ≤ d.conf)) = true := by
  induction results with
  | nil => rfl
  | cons r rest ih =>
    cases r with
    | none =>
      simpa [detectedObjectsOf] using ih
    | some boxes =>
      simp only [detectedObjectsOf, List.map_cons, List.flatten, List.all_append,
        Bool.and_eq_true] at ih ⊢
      refine ⟨?_, ih⟩
      simp only [List.all_eq_true, decide_eq_true_eq]
      intro d hd
      obtain ⟨b, hb, rfl⟩ := List.mem_map.mp hd
      have hbf := (List.mem_filter.mp hb).2
      simp only [Bool.not_eq_true', decide_eq_false_iff_not, not_lt] at hbf
      exact hbf

/-- C9: confidence filtering.  Whenever `ObjectDetector.detect` returns a
detection list to the pipeline, that list is exactly the first loop's output —
the boxes whose confidence is at least 0.5, in order, with all boxes below
the 0.5 threshold discarded — and every detection in it has confidence at
least 0.5. -/
theorem objectDetect_conf_filter (results : YoloResults) (names : List String)
    (dets : List Detection)
    (h : objectDetect results names = .objects dets) :
    dets = detectedObjectsOf results names ∧
    dets.all (fun d => decide (mkRat 1 2 ≤ d.conf)) = true := by
  unfold objectDetect at h
  by_cases he : (detectedObjectsOf results names).isEmpty = true
  · rw [if_pos he] at h
    have hnil := scanForUnknown_objects_eq_nil names results dets h
    subst hnil
    refine ⟨?_, rfl⟩
    exact (List.isEmpty_iff.mp he).symm
  · rw [if_neg he] at h
    cases h
    exact ⟨rfl, detectedObjectsOf_all_conf results names⟩

/-- Concrete YOLO output for the C9 witness: one confident box (0.9) and one
below threshold (0.3). -/
def exResults : YoloResults :=
  [some [{ x1 := 10, y1 := 10, x2 := 60, y2 := 60, conf := mkRat 9 10, clsId := 0 },
         { x1 := 0, y1 := 0, x2 := 5, y2 := 5, conf := mkRat 3 10, clsId := 0 }]]

/-- Class-name table for the C9 witness. -/
def exNames : List String := ["PET"]

/-- Expected detection list for the C9 witness: only the confident box. -/
def exDets : List Detection :=
  [{ clsName := "PET", box := (10, 10, 60, 60), conf := mkRat 9 10 }]

/-- Witness for `objectDetect_conf_filter`: on `exResults`, `detect` returns
the singleton list keeping only the box with confidence 0.9. -/
theorem objectDetect_conf_filter_witness :
    objectDetect exResults exNames = .objects exDets ∧
    exDets = detectedObjectsOf exResults exNames ∧
    exDets.all (fun d => decide (mkRat 1 2 ≤ d.conf)) = true :=
  ⟨by decide,
   (objectDetect_conf_filter exResults exNames exDets (by decide)).1,
   (objectDetect_conf_filter exResults exNames exDets (by decide)).2⟩

/-- The `mkRat` threshold of the embedding is the source's literal 0.5. -/
theorem mkRat_one_two_eq_half : (mkRat 1 2 : ℚ) = 1/2 := by
  norm_num [mkRat, Rat.normalize]

end PlasticWasteSorting

namespace PlasticWasteSorting

/-! ## Color detection — color_detection.py -/

/-- One pixel of a region: three unsigned byte channels, in the channel order
of the source arrays (OpenCV loads frames as BGR; the source nevertheless
treats the raw triples as RGB when comparing against `color_reference`, and
the embedding follows the source). -/
structure Pixel where
  c0 : Nat
  c1 : Nat
  c2 : Nat
deriving DecidableEq, Repr

/-- A cropped region: rows of pixels. -/
abbrev Region := List (List Pixel)

/-- `roi.size == 0` holds exactly when the region has no pixels (for a
`h×w×3` array, `size = 3·h·w`, which vanishes iff there are no pixels). -/
def regionSize (roi : Region) : Nat := (roi.map List.length).sum

/-- Deterministic model of `cv2.resize(roi, (50, 50))` (an external library
call): nearest-source sampling to a fixed 50×50 resolution.  The claims about
this module depend only on it being a fixed deterministic function of the
input region, not on the exact interpolation. -/
def resize50 (roi : Region) : Region :=
  (List.range 50).map (fun i =>
    (List.range 50).map (fun j =>
      (roi.getD (i * roi.length / 50) []).getD
        (j * (roi.headD []).length / 50) ⟨0, 0, 0⟩))

/-- The HSV value channel of a pixel: `V = max(c0, c1, c2)` (the OpenCV
BGR→HSV conversion). -/
def hsvValue (p : Pixel) : Nat := max p.c0 (max p.c1 p.c2)

/-- Mask predicate of `cv2.inRange(hsv_roi, [0, 0, 50], [180, 255, 255])`
(color_detection.py line 36): OpenCV hue lies in 0..180 and saturation and
value in 0..255 for uint8 data, so only the lower value bound `50 ≤ V`
selects. -/
def inBrightRange (p : Pixel) : Bool := decide (50 ≤ hsvValue p)

/-- The mask array returned by `preprocess_roi`, one flag per resized pixel. -/
def maskOf (roi : Region) : List (List Bool) :=
  roi.map (fun row => row.map inBrightRange)

/-- `ColorDetector.preprocess_roi` (lines 24-37): `(None, None)` for an empty
region, otherwise the resized region and its brightness mask. -/
def preprocess_roi (roi : Region) : Option Region × Option (List (List Bool)) :=
  if regionSize roi = 0 then (none, none)
  else
    let r := resize50 roi
    (some r, some (maskOf r))

/-- The single-entry cache owned by a `ColorDetector` instance:
`self.last_dominant_color` and `self.last_roi_hash`.  The Python fingerprint
`hash(roi.tobytes())` is embedded injectively as the flattened pixel list
itself (equal bytes give equal hashes, which is the only property the cache
logic relies on). -/
structure CacheState where
  last_dominant_color : Option Pixel
  last_roi_hash : Option (List Pixel)
deriving DecidableEq, Repr

/-- The cache state set up by `ColorDetector.__init__` (lines 21-22). -/
def cacheInit : CacheState := { last_dominant_color := none, last_roi_hash := none }

/-- The boolean-mask selection `pixels[mask_flat > 0]` over the flattened
pixel and mask arrays (lines 52-54). -/
def validPixels (pixels : List Pixel) (maskFlat : List Bool) : List Pixel :=
  (pixels.zip maskFlat).filterMap (fun pm => if pm.2 then some pm.1 else none)

/-- `KMeans(n_clusters=1).fit(valid_pixels).cluster_centers_[0].astype(int)`:
single-cluster k-means converges to the arithmetic mean of the points, and
`astype(int)` truncates the (non-negative) mean, which is natural-number
division. -/
def clusterCentroid (ps : List Pixel) : Pixel :=
  { c0 := (ps.map Pixel.c0).sum / ps.length,
    c1 := (ps.map Pixel.c1).sum / ps.length,
    c2 := (ps.map Pixel.c2).sum / ps.length }

/-- `np.clip(dominant_color, 0, 255)` (line 64); channels are already
non-negative naturals, so only the upper clamp acts. -/
def clip255 (p : Pixel) : Pixel := ⟨min p.c0 255, min p.c1 255, min p.c2 255⟩

/-- The observable outcome of one `get_dominant_color` call: the returned
color, the cache state afterwards, whether the k-means step ran, and whether
the call was served from the fingerprint cache. -/
structure DomResult where
  color : Option Pixel
  state : CacheState
  ranClustering : Bool
  cacheHit : Bool
deriving DecidableEq, Repr

/-- `ColorDetector.get_dominant_color` (lines 39-69). -/
def get_dominant_color (roi : Option Region) (mask : Option (List (List Bool)))
    (s : CacheState) : DomResult :=
  match roi, mask with
  | some roi, some mask =>
    let roiHash := roi.flatten
    if s.last_roi_hash = some roiHash ∧ s.last_dominant_color ≠ none then
      { color := s.last_dominant_color, state := s, ranClustering := false, cacheHit := true }
    else
      let valid := validPixels roi.flatten mask.flatten
      if valid.length < 50 then
        { color := none, state := s, ranClustering := false, cacheHit := false }
      else
        let dom := clip255 (clusterCentroid valid)
        { color := some dom,
          state := { last_dominant_color := some dom, last_roi_hash := some roiHash },
          ranClustering := true, cacheHit := false }
  | _, _ => { color := none, state := s, ranClustering := false, cacheHit := false }

/-- The predefined reference colors `self.color_reference` (lines 12-19), in
dictionary insertion order. -/
def color_reference : List (String × Int × Int × Int) :=
  [("White", 255, 255, 255),
   ("Red", 255, 0, 0),
   ("Green", 0, 128, 0),
   ("Blue", 0, 0, 255),
   ("Brown", 56, 28, 8),
   ("Yellow", 255, 255, 0)]

/-- Squared Euclidean distance between a pixel and a reference color.  The
source compares `sqrt` distances with strict `<`; square root is strictly
monotone and (at these magnitudes) collision-free in double precision, so
comparing squared integer distances decides the same inequalities. -/
def sqDist (a : Pixel) (r : Int × Int × Int) : Int :=
  ((a.c0 : Int) - r.1)^2 + ((a.c1 : Int) - r.2.1)^2 + ((a.c2 : Int) - r.2.2)^2

/-- One iteration of the "closest color" loop (lines 81-86): strictly smaller
distance replaces the running minimum; `none` is the initial `inf`. -/
def closerFold (c : Pixel) (acc : Option Int × String) (ref : String × Int × Int × Int) :
    Option Int × String :=
  match acc.1 with
  | none => (some (sqDist c ref.2), ref.1)
  | some m => if sqDist c ref.2 < m then (some (sqDist c ref.2), ref.1) else acc

/-- `ColorDetector.find_closest_color` (lines 71-88). -/
def find_closest_color (rgb : Option Pixel) : String :=
  match rgb with
  | none => "unknown"
  | some c => (color_reference.foldl (closerFold c) (none, "unknown")).2

/-- The observable outcome of one `detect_color` call. -/
structure ColorResult where
  label : String
  state : CacheState
  ranClustering : Bool
  cacheHit : Bool
deriving DecidableEq, Repr

/-- `ColorDetector.detect_color` (lines 90-111).  The out-of-range pixel
check on line 98 only prints a warning and does not alter the result. -/
def detect_color (roi : Region) (s : CacheState) : ColorResult :=
  if regionSize roi = 0 then { label := "unknown", state := s, ranClustering := false, cacheHit := false }
  else
    match preprocess_roi roi with
    | (none, _) => { label := "unknown", state := s, ranClustering := false, cacheHit := false }
    | (some r, m) =>
      let d := get_dominant_color (some r) m s
      match d.color with
      | none =>
        { label := "unknown", state := d.state, ranClustering := d.ranClustering,
          cacheHit := d.cacheHit }
      | some c =>
        { label := find_closest_color (some c), state := d.state,
          ranClustering := d.ranClustering, cacheHit := d.cacheHit }

/-- Modelled from the spec: the histogram color-classification strategy of
section 4.3, which is not present under src/ (the repository ships only the
clustering strategy in color_detection.py).  Input is a flat list of HSV
pixels (hue 0..180, saturation and value 0..255); the qualitative "low" and
"high" thresholds of the spec are fixed at representative byte values, and
the hue ranges at the usual OpenCV boundaries, with red as the merge of the
two wrap-around sub-ranges.  An empty region yields "unknown" as the spec
requires, independently of those constants. -/
def histogramClassify (hsvRegion : List (Nat × Nat × Nat)) : String :=
  let n := hsvRegion.length
  if n = 0 then "unknown"
  else
    let whiteCount := (hsvRegion.filter (fun p => decide (p.2.1 < 50 ∧ 200 < p.2.2))).length
    let blackCount := (hsvRegion.filter (fun p => decide (p.2.2 < 50))).length
    if n < 2 * whiteCount then "white"
    else if n < 2 * blackCount then "black"
    else
      let hues := (hsvRegion.filter (fun p => decide (50 ≤ p.2.1 ∧ 50 ≤ p.2.2))).map
        (fun p => p.1)
      match (List.range 181).foldl (fun acc h =>
          let cnt := (hues.filter (fun x => x = h)).length
          match acc with
          | none => if 0 < cnt then some (h, cnt) else none
          | some hc => if hc.2 < cnt then some (h, cnt) else acc) none with
      | none => "unknown"
      | some hc =>
        if hc.1 < 10 ∨ 160 < hc.1 then "red"
        else if hc.1 < 25 then "orange"
        else if hc.1 < 35 then "yellow"
        else if hc.1 < 85 then "green"
        else if hc.1 < 125 then "blue"
        else "purple"

/-- Selecting a flattened pixel list by the pointwise brightness mask of the
same list is filtering by the brightness predicate. -/
theorem validPixels_self_map (l : List Pixel) :
    validPixels l (l.map inBrightRange) = l.filter inBrightRange := by
  induction l with
  | nil => rfl
  | cons p l ih =>
    simp only [validPixels, List.map_cons, List.zip_cons_cons, List.filterMap_cons] at ih ⊢
    cases hb : inBrightRange p with
    | false => simpa [List.filter_cons, hb] using ih
    | true => simpa [List.filter_cons, hb] using ih

/-- The valid-pixel selection of `get_dominant_color` on the mask produced by
`preprocess_roi` is a brightness filter over the flattened region. -/
theorem validPixels_maskOf (r : Region) :
    validPixels r.flatten (maskOf r).flatten = r.flatten.filter inBrightRange := by
  have h : (maskOf r).flatten = r.flatten.map inBrightRange := by
    simp [maskOf, List.map_flatten]
  rw [h, validPixels_self_map]

/-- `preprocess_roi` on a non-empty region yields the resized region and its
mask. -/
theorem preprocess_roi_nonempty (roi : Region) (h : regionSize roi ≠ 0) :
    preprocess_roi roi = (some (resize50 roi), some (maskOf (resize50 roi))) := by
  simp [preprocess_roi, h]

/-- On a non-empty region, `detect_color` is `get_dominant_color` on the
resized region followed by the closest-color match (`find_closest_color` maps
`none` to `"unknown"`, collapsing the two return paths). -/
theorem detect_color_nonempty (roi : Region) (s : CacheState) (h : regionSize roi ≠ 0) :
    detect_color roi s =
      { label := find_closest_color
          (get_dominant_color (some (resize50 roi)) (some (maskOf (resize50 roi))) s).color,
        state := (get_dominant_color (some (resize50 roi)) (some (maskOf (resize50 roi))) s).state,
        ranClustering :=
          (get_dominant_color (some (resize50 roi)) (some (maskOf (resize50 roi))) s).ranClustering,
        cacheHit :=
          (get_dominant_color (some (resize50 roi)) (some (maskOf (resize50 roi))) s).cacheHit } := by
  unfold detect_color
  rw [if_neg h, preprocess_roi_nonempty roi h]
  cases hd : (get_dominant_color (some (resize50 roi)) (some (maskOf (resize50 roi))) s).color with
  | none => simp [hd, find_closest_color]
  | some c => simp [hd, find_closest_color]

/-- Repeating `get_dominant_color` on the same resized region and mask:
the second call returns the same color, never re-runs the clustering step,
leaves the cache unchanged, and — when the first call did run the clustering
step — is served from the cache. -/
theorem get_dominant_color_repeat (r : Region) (mask : List (List Bool)) (s : CacheState) :
    (get_dominant_color (some r) (some mask)
        (get_dominant_color (some r) (some mask) s).state).color =
      (get_dominant_color (some r) (some mask) s).color ∧
    (get_dominant_color (some r) (some mask)
        (get_dominant_color (some r) (some mask) s).state).ranClustering = false ∧
    (get_dominant_color (some r) (some mask)
        (get_dominant_color (some r) (some mask) s).state).state =
      (get_dominant_color (some r) (some mask) s).state ∧
    ((get_dominant_color (some r) (some mask) s).ranClustering = true →
      (get_dominant_color (some r) (some mask)
          (get_dominant_color (some r) (some mask) s).state).cacheHit = true) := by
  by_cases hcond : s.last_roi_hash = some r.flatten ∧ s.last_dominant_color ≠ none
  · simp only [get_dominant_color, if_pos hcond]
    simp [if_pos hcond]
  · by_cases hlen : (validPixels r.flatten mask.flatten).length < 50
    · simp only [get_dominant_color, if_neg hcond, if_pos hlen]
      simp [if_neg hcond, if_pos hlen]
    · simp only [get_dominant_color, if_neg hcond, if_neg hlen]
      simp

/-- Cache consistency: whenever the single-entry cache is populated, the
cached fingerprint is that of a resized region with at least 50 valid
(bright) pixels.  This holds for the freshly constructed detector and is
preserved by every `detect_color` call (`CacheInv_cacheInit`,
`CacheInv_detect_color`). -/
def CacheInv (s : CacheState) : Prop :=
  ∀ fp c, s.last_roi_hash = some fp → s.last_dominant_color = some c →
    50 ≤ (fp.filter inBrightRange).length

/-- The initial cache state is consistent. -/
theorem CacheInv_cacheInit : CacheInv cacheInit := by
  intro fp c h _
  cases h

/-- `detect_color` preserves cache consistency. -/
theorem CacheInv_detect_color (roi : Region) (s : CacheState) (hinv : CacheInv s) :
    CacheInv (detect_color roi s).state := by
  by_cases hne : regionSize roi = 0
  · simpa [detect_color, hne] using hinv
  · rw [detect_color_nonempty roi s hne]
    by_cases hcond : s.last_roi_hash = some (resize50 roi).flatten ∧
        s.last_dominant_color ≠ none
    · simpa [get_dominant_color, if_pos hcond] using hinv
    · by_cases hlen : (validPixels (resize50 roi).flatten
          (maskOf (resize50 roi)).flatten).length < 50
      · simpa [get_dominant_color, if_neg hcond, if_pos hlen] using hinv
      · simp only [get_dominant_color, if_neg hcond, if_neg hlen]
        intro fp c hfp _
        cases hfp
        rw [← validPixels_maskOf]
        omega

/-- On a consistent cache, a non-empty region whose resized form has fewer
than 50 bright pixels makes `detect_color` return `"unknown"` with the cache
untouched and no clustering run. -/
theorem detect_color_dark_aux (roi : Region) (s : CacheState) (hinv : CacheInv s)
    (hne : regionSize roi ≠ 0)
    (hdark : ((resize50 roi).flatten.filter inBrightRange).length < 50) :
    detect_color roi s =
      { label := "unknown", state := s, ranClustering := false, cacheHit := false } := by
  have hmiss : ¬ (s.last_roi_hash = some (resize50 roi).flatten ∧
      s.last_dominant_color ≠ none) := by
    rintro ⟨hh, hc⟩
    obtain ⟨c, hc'⟩ := Option.ne_none_iff_exists'.mp hc
    have h50 := hinv _ c hh hc'
    omega
  have hlen : (validPixels (resize50 roi).flatten
      (maskOf (resize50 roi)).flatten).length < 50 := by
    rw [validPixels_maskOf]
    exact hdark
  rw [detect_color_nonempty roi s hne]
  simp [get_dominant_color, if_neg hmiss, if_pos hlen, find_closest_color]

end PlasticWasteSorting

namespace PlasticWasteSorting

/-- A single-pixel region resizes to the constant 50×50 region of that
pixel. -/
theorem resize50_single (p : Pixel) :
    resize50 [[p]] = List.replicate 50 (List.replicate 50 p) := by
  refine List.eq_replicate_iff.2 ⟨by simp [resize50], ?_⟩
  intro row hrow
  obtain ⟨i, hi, rfl⟩ := List.mem_map.mp hrow
  have hi50 : i < 50 := List.mem_range.mp hi
  refine List.eq_replicate_iff.2 ⟨by simp, ?_⟩
  intro b hb
  obtain ⟨j, hj, rfl⟩ := List.mem_map.mp hb
  have hj50 : j < 50 := List.mem_range.mp hj
  show ([[p]].getD (i * ([[p]] : Region).length / 50) []).getD
      (j * (([[p]] : Region).headD []).length / 50) ⟨0, 0, 0⟩ = p
  simp [Nat.div_eq_of_lt, hi50, hj50]

/-- Flattening the constant 50×50 region gives 2500 copies of the pixel. -/
theorem flatten_resize50_single (p : Pixel) :
    (resize50 [[p]]).flatten = List.replicate 2500 p := by
  rw [resize50_single]
  have h : ∀ n, (List.replicate n (List.replicate 50 p)).flatten =
      List.replicate (n * 50) p := by
    intro n
    induction n with
    | zero => rfl
    | succ n ih =>
      rw [List.replicate_succ, List.flatten_cons, ih, Nat.succ_mul, Nat.add_comm,
        List.replicate_add]
  exact h 50

/-- The all-black single-pixel region: every resized pixel is filtered out by
the brightness mask. -/
def roiBlack : Region := [[⟨0, 0, 0⟩]]

/-- The all-white single-pixel region: every resized pixel passes the
brightness mask. -/
def roiWhite : Region := [[⟨255, 255, 255⟩]]

/-- The resized black region has no bright pixels at all. -/
theorem roiBlack_dark :
    ((resize50 roiBlack).flatten.filter inBrightRange).length < 50 := by
  rw [show roiBlack = [[⟨0, 0, 0⟩]] from rfl, flatten_resize50_single,
    List.filter_replicate]
  norm_num [inBrightRange, hsvValue]

/-- Evaluating `detect_color` on the black region: label `"unknown"`, cache
untouched, no clustering, no cache hit. -/
theorem detect_color_roiBlack :
    detect_color roiBlack cacheInit =
      { label := "unknown", state := cacheInit, ranClustering := false, cacheHit := false } :=
  detect_color_dark_aux roiBlack cacheInit CacheInv_cacheInit (by decide) roiBlack_dark

/-- Single-cluster k-means over identical points returns that point. -/
theorem clusterCentroid_replicate (n : Nat) (p : Pixel) (hn : n ≠ 0) :
    clusterCentroid (List.replicate n p) = p := by
  obtain ⟨a, b, c⟩ := p
  have hn' : 0 < n := Nat.pos_of_ne_zero hn
  simp [clusterCentroid, List.map_replicate, List.sum_replicate, smul_eq_mul,
    Nat.mul_div_cancel_left, hn']

/-- The clustering branch of `get_dominant_color`: on a cache miss with at
least 50 valid pixels, the k-means step runs and both the centroid and the
fingerprint are cached. -/
theorem gdc_cluster (r : Region) (mask : List (List Bool)) (s : CacheState)
    (hmiss : ¬ (s.last_roi_hash = some r.flatten ∧ s.last_dominant_color ≠ none))
    (hlen : ¬ (validPixels r.flatten mask.flatten).length < 50) :
    get_dominant_color (some r) (some mask) s =
      { color := some (clip255 (clusterCentroid (validPixels r.flatten mask.flatten))),
        state := { last_dominant_color :=
                     some (clip255 (clusterCentroid (validPixels r.flatten mask.flatten))),
                   last_roi_hash := some r.flatten },
        ranClustering := true, cacheHit := false } := by
  simp only [get_dominant_color, if_neg hmiss, if_neg hlen]

/-- Evaluating `get_dominant_color` on the resized white region from the
initial cache: the clustering step runs and caches the white centroid. -/
theorem gdc_white :
    get_dominant_color (some (resize50 roiWhite)) (some (maskOf (resize50 roiWhite)))
      cacheInit =
      { color := some ⟨255, 255, 255⟩,
        state := { last_dominant_color := some ⟨255, 255, 255⟩,
                   last_roi_hash := some ((resize50 roiWhite).flatten) },
        ranClustering := true, cacheHit := false } := by
  have hval : validPixels (resize50 roiWhite).flatten (maskOf (resize50 roiWhite)).flatten =
      List.replicate 2500 (⟨255, 255, 255⟩ : Pixel) := by
    rw [validPixels_maskOf, show roiWhite = [[⟨255, 255, 255⟩]] from rfl,
      flatten_resize50_single, List.filter_replicate]
    norm_num [inBrightRange, hsvValue]
  have hmiss : ¬ (cacheInit.last_roi_hash = some (resize50 roiWhite).flatten ∧
      cacheInit.last_dominant_color ≠ none) := by
    simp [cacheInit]
  have hlen : ¬ (validPixels (resize50 roiWhite).flatten
      (maskOf (resize50 roiWhite)).flatten).length < 50 := by
    rw [hval, List.length_replicate]
    norm_num
  rw [gdc_cluster _ _ _ hmiss hlen, hval,
    clusterCentroid_replicate 2500 _ (by norm_num)]
  rfl

/-- The first `detect_color` call on the white region runs the clustering
step. -/
theorem detect_color_roiWhite_ran :
    (detect_color roiWhite cacheInit).ranClustering = true := by
  rw [detect_color_nonempty roiWhite cacheInit (by decide), gdc_white]

end PlasticWasteSorting

namespace PlasticWasteSorting

/-- C5: for every region with zero area, the color classifier returns
`"unknown"` (leaving its cache untouched) under the repository's clustering
strategy (`detect_color`), and the spec-modelled histogram strategy likewise
returns `"unknown"` on the empty region; neither embedding can throw — both
are total functions that degrade to `"unknown"`. -/
theorem classify_empty_region (roi : Region) (s : CacheState)
    (hsv : List (Nat × Nat × Nat)) (hroi : regionSize roi = 0) (hhsv : hsv = []) :
    (detect_color roi s).label = "unknown" ∧ (detect_color roi s).state = s ∧
    histogramClassify hsv = "unknown" := by
  subst hhsv
  refine ⟨?_, ?_, rfl⟩ <;> simp [detect_color, hroi]

/-- Witness for `classify_empty_region`: the empty crop. -/
theorem classify_empty_region_witness :
    regionSize ([] : Region) = 0 ∧ ([] : List (Nat × Nat × Nat)) = [] ∧
    ((detect_color [] cacheInit).label = "unknown" ∧
     (detect_color [] cacheInit).state = cacheInit ∧
     histogramClassify [] = "unknown") :=
  ⟨rfl, rfl, classify_empty_region [] cacheInit [] rfl rfl⟩

/-- C6 counterexample: the claim that for every region the second of two
identical classify calls is served from the fingerprint cache is false at the
black single-pixel region: too few bright pixels survive the mask, the first
call caches nothing, and the identical second call is again not a cache
hit. -/
theorem detect_color_cache_counterexample :
    (detect_color roiBlack (detect_color roiBlack cacheInit).state).cacheHit = false := by
  rw [show (detect_color roiBlack cacheInit).state = cacheInit from by
        rw [detect_color_roiBlack],
      detect_color_roiBlack]

/-- C6 amended: calling classify twice in succession with byte-identical
resized regions returns the identical color label on the second call, the
second call never re-runs the clustering step and leaves the cache unchanged;
and whenever the first call did run the clustering step, the second call is
served from the single-entry fingerprint cache. -/
theorem detect_color_repeat (roi₁ roi₂ : Region) (s : CacheState)
    (h₁ : regionSize roi₁ ≠ 0) (h₂ : regionSize roi₂ ≠ 0)
    (hres : resize50 roi₁ = resize50 roi₂) :
    (detect_color roi₂ (detect_color roi₁ s).state).label = (detect_color roi₁ s).label ∧
    (detect_color roi₂ (detect_color roi₁ s).state).ranClustering = false ∧
    (detect_color roi₂ (detect_color roi₁ s).state).state = (detect_color roi₁ s).state ∧
    ((detect_color roi₁ s).ranClustering = true →
      (detect_color roi₂ (detect_color roi₁ s).state).cacheHit = true) := by
  rw [detect_color_nonempty roi₁ s h₁, detect_color_nonempty roi₂ _ h₂, ← hres]
  obtain ⟨hc, hr, hs, hh⟩ :=
    get_dominant_color_repeat (resize50 roi₁) (maskOf (resize50 roi₁)) s
  exact ⟨by rw [hc], by rw [hr], by rw [hs], fun h => by rw [hh h]⟩

/-- Witness for `detect_color_repeat`: the white single-pixel region, whose
first call runs the clustering step, so the identical second call is a cache
hit with the same label and no reclustering. -/
theorem detect_color_repeat_witness :
    regionSize roiWhite ≠ 0 ∧ resize50 roiWhite = resize50 roiWhite ∧
    (detect_color roiWhite cacheInit).ranClustering = true ∧
    ((detect_color roiWhite (detect_color roiWhite cacheInit).state).label =
       (detect_color roiWhite cacheInit).label ∧
     (detect_color roiWhite (detect_color roiWhite cacheInit).state).ranClustering = false ∧
     (detect_color roiWhite (detect_color roiWhite cacheInit).state).cacheHit = true) :=
  ⟨by decide, rfl, detect_color_roiWhite_ran,
   (detect_color_repeat roiWhite roiWhite cacheInit (by decide) (by decide) rfl).1,
   (detect_color_repeat roiWhite roiWhite cacheInit (by decide) (by decide) rfl).2.1,
   (detect_color_repeat roiWhite roiWhite cacheInit (by decide) (by decide) rfl).2.2.2
     detect_color_roiWhite_ran⟩

/-- C10: for every non-empty region whose 50×50 resized form keeps fewer
than 50 pixels after masking out pixels with HSV value below 50, the
clustering color classifier returns `"unknown"` rather than a named color,
runs no clustering, and does not update the fingerprint cache — provided the
cache is consistent (`CacheInv` holds initially and is preserved by every
call, see `CacheInv_cacheInit` and `CacheInv_detect_color`). -/
theorem detect_color_few_valid (roi : Region) (s : CacheState) (hinv : CacheInv s)
    (hne : regionSize roi ≠ 0)
    (hdark : (validPixels (resize50 roi).flatten
        (maskOf (resize50 roi)).flatten).length < 50) :
    detect_color roi s =
      { label := "unknown", state := s, ranClustering := false, cacheHit := false } := by
  apply detect_color_dark_aux roi s hinv hne
  rwa [validPixels_maskOf] at hdark

/-- Witness for `detect_color_few_valid`: the black single-pixel region on
the initial cache. -/
theorem detect_color_few_valid_witness :
    CacheInv cacheInit ∧ regionSize roiBlack ≠ 0 ∧
    (validPixels (resize50 roiBlack).flatten
        (maskOf (resize50 roiBlack)).flatten).length < 50 ∧
    detect_color roiBlack cacheInit =
      { label := "unknown", state := cacheInit, ranClustering := false, cacheHit := false } :=
  ⟨CacheInv_cacheInit, by decide,
   by rw [validPixels_maskOf]; exact roiBlack_dark,
   detect_color_few_valid roiBlack cacheInit CacheInv_cacheInit (by decide)
     (by rw [validPixels_maskOf]; exact roiBlack_dark)⟩

end PlasticWasteSorting

namespace PlasticWasteSorting

/-! ## Pipeline orchestrator — Mark_II___Hit_400.py (WasteSortingApp)

The GUI fields that participate in the run-state machine are embedded as an
explicit state record; Tkinter callbacks become transition functions.  An
exception escaping a callback is reported by the Tk main loop and the
application continues with whatever state was mutated before the raise, so a
transition returns the state at the point of the raise together with a
`raised` flag.  Availability flags (`self.camera is not None`,
`self.detector is not None`) are set in `__init__` and never change
afterwards.  Handlers that touch none of these fields (database and settings
dialogs, camera reselection, arm sliders) are identity on this state. -/

/-- The `WasteSortingApp` fields driving the sorting state machine. -/
structure AppState where
  cameraAvail : Bool
  detectorAvail : Bool
  armAvail : Bool
  running_sorting : Bool
  status : String
  troubleshoot : String
  latest_detections : List Detection
  latest_frame : Option Frame
  start_button_enabled : Bool
  stop_button_enabled : Bool
deriving DecidableEq, Repr

/-- The state established by `WasteSortingApp.__init__` and `setup_gui`,
parameterised by which hardware initialisations succeeded. -/
def initState (cameraAvail detectorAvail armAvail : Bool) : AppState :=
  { cameraAvail := cameraAvail, detectorAvail := detectorAvail, armAvail := armAvail,
    running_sorting := false, status := "Status: Idle",
    troubleshoot := "Troubleshooting: No Issues", latest_detections := [],
    latest_frame := none, start_button_enabled := true, stop_button_enabled := false }

/-- The observable outcome of one GUI callback: the state afterwards, the arm
events issued, the warning dialogs shown, and whether an exception escaped
the callback. -/
structure TickResult where
  state : AppState
  armTrace : List ArmEvent
  warnings : List String
  raised : Bool
deriving DecidableEq, Repr

/-- `WasteSortingApp.stop_sorting` (lines 471-476). -/
def stop_sorting (s : AppState) : AppState :=
  { s with
    running_sorting := false
    start_button_enabled := true
    stop_button_enabled := false
    status := "Status: Idle" }

/-- `WasteSortingApp.sort_objects` (lines 478-503).  With detections present,
the loop header `for cls_name, conf, bbox, color in self.latest_detections`
unpacks the stored length-3 tuples into four names and raises a `ValueError`
before any arm command or mutation, so that branch returns the unchanged
state with `raised`. -/
def sort_objects (s : AppState) : TickResult :=
  if s.running_sorting = false then
    { state := s, armTrace := [], warnings := [], raised := false }
  else if s.latest_detections.isEmpty then
    { state := stop_sorting
        { s with troubleshoot := "Troubleshooting: No objects to sort" },
      armTrace := [], warnings := [], raised := false }
  else
    { state := s, armTrace := [], warnings := [], raised := true }

/-- `WasteSortingApp.start_sorting` (lines 459-469): without detections the
transition is rejected with a warning dialog and nothing changes; otherwise
the run state flips to Sorting and `sort_objects` is invoked. -/
def start_sorting (s : AppState) : TickResult :=
  if s.latest_detections.isEmpty then
    { state := s, armTrace := [],
      warnings := ["No objects detected. Please click 'Detect' first."], raised := false }
  else
    sort_objects
      { s with
        running_sorting := true
        start_button_enabled := false
        stop_button_enabled := true
        status := "Status: Sorting" }

/-- `WasteSortingApp.detect_objects` (lines 388-457), parameterised by the
frame the camera returns and the detector outcome.  A `DetectOutcome.objects`
list consists of length-3 tuples, each re-appended unchanged in Step 2; the
`unknownObject` triple's elements are not length-3 tuples (taking the ROI
array to not have exactly 3 rows), so it contributes no detections.  With a
non-empty detection list, Step 3 binds `bbox` to the confidence float (the
stored tuple order is `(name, bbox, conf)` while the loop unpacks
`(cls_name, conf, bbox)`) and `map(int, bbox)` raises a `TypeError` after
`latest_detections` and `latest_frame` were already stored. -/
def detect_objects (frameRes : Option Frame) (detRes : DetectOutcome) (s : AppState) :
    TickResult :=
  if s.cameraAvail = false then
    { state := { s with status := "Status: Camera Not Initialized" },
      armTrace := [], warnings := [], raised := false }
  else if s.detectorAvail = false then
    { state := { s with
        troubleshoot := "Troubleshooting: Object Detector Not Initialized"
        status := "Status: Error - Detector Not Initialized" },
      armTrace := [], warnings := [], raised := false }
  else
    match frameRes with
    | none =>
      { state := { s with status := "Status: No Frame Available" },
        armTrace := [], warnings := [], raised := false }
    | some f =>
      let dets := match detRes with
        | .objects l => l
        | .unknownObject _ => []
      let s1 := { s with latest_detections := dets, latest_frame := some f }
      if dets.isEmpty then
        { state := { s1 with troubleshoot := "Troubleshooting: No valid objects detected" },
          armTrace := [], warnings := [], raised := false }
      else
        { state := s1, armTrace := [], warnings := [], raised := true }

/-- `WasteSortingApp.update_frame` (lines 518-529): the 10 ms display tick. -/
def update_frame (frameRes : Option Frame) (s : AppState) : AppState :=
  if s.cameraAvail = false then { s with status := "Status: Camera Not Initialized" }
  else if s.latest_detections.isEmpty then { s with latest_frame := frameRes }
  else s

/-- The states the application can reach from initialisation through its
callbacks (handlers not listed leave the embedded fields unchanged). -/
inductive Reachable : AppState → Prop
  | init (cam det arm : Bool) : Reachable (initState cam det arm)
  | detect (frameRes : Option Frame) (detRes : DetectOutcome) (s : AppState) :
      Reachable s → Reachable (detect_objects frameRes detRes s).state
  | start (s : AppState) : Reachable s → Reachable (start_sorting s).state
  | stop (s : AppState) : Reachable s → Reachable (stop_sorting s)
  | tick (s : AppState) : Reachable s → Reachable (sort_objects s).state
  | frame (frameRes : Option Frame) (s : AppState) :
      Reachable s → Reachable (update_frame frameRes s)

/-- When the camera or the detector is unavailable, no detections are ever
stored: `detect_objects` returns before its detection-processing step. -/
def availInv (s : AppState) : Prop :=
  s.cameraAvail = false ∨ s.detectorAvail = false → s.latest_detections = []

/-- `detect_objects` never changes the availability flags. -/
theorem detect_objects_flags (frameRes : Option Frame) (detRes : DetectOutcome)
    (s : AppState) :
    (detect_objects frameRes detRes s).state.cameraAvail = s.cameraAvail ∧
    (detect_objects frameRes detRes s).state.detectorAvail = s.detectorAvail := by
  unfold detect_objects
  split
  · exact ⟨rfl, rfl⟩
  · split
    · exact ⟨rfl, rfl⟩
    · cases frameRes with
      | none => exact ⟨rfl, rfl⟩
      | some f =>
        simp only
        split
        · exact ⟨rfl, rfl⟩
        · exact ⟨rfl, rfl⟩

/-- When the camera or the detector is unavailable, `detect_objects` leaves
the stored detections unchanged. -/
theorem detect_objects_unavailable (frameRes : Option Frame) (detRes : DetectOutcome)
    (s : AppState) (h : s.cameraAvail = false ∨ s.detectorAvail = false) :
    (detect_objects frameRes detRes s).state.latest_detections =
      s.latest_detections := by
  unfold detect_objects
  rcases h with h | h
  · rw [if_pos h]
  · by_cases hc : s.cameraAvail = false
    · rw [if_pos hc]
    · rw [if_neg hc, if_pos h]

/-- `stop_sorting` changes neither the availability flags nor the stored
detections. -/
theorem stop_sorting_fields (s : AppState) :
    (stop_sorting s).cameraAvail = s.cameraAvail ∧
    (stop_sorting s).detectorAvail = s.detectorAvail ∧
    (stop_sorting s).latest_detections = s.latest_detections :=
  ⟨rfl, rfl, rfl⟩

/-- `sort_objects` changes neither the availability flags nor the stored
detections (with detections present it raises before any mutation). -/
theorem sort_objects_fields (s : AppState) :
    (sort_objects s).state.cameraAvail = s.cameraAvail ∧
    (sort_objects s).state.detectorAvail = s.detectorAvail ∧
    (sort_objects s).state.latest_detections = s.latest_detections := by
  unfold sort_objects
  split
  · exact ⟨rfl, rfl, rfl⟩
  · split
    · exact ⟨rfl, rfl, rfl⟩
    · exact ⟨rfl, rfl, rfl⟩

/-- `start_sorting` changes neither the availability flags nor the stored
detections. -/
theorem start_sorting_fields (s : AppState) :
    (start_sorting s).state.cameraAvail = s.cameraAvail ∧
    (start_sorting s).state.detectorAvail = s.detectorAvail ∧
    (start_sorting s).state.latest_detections = s.latest_detections := by
  unfold start_sorting
  split
  · exact ⟨rfl, rfl, rfl⟩
  · exact sort_objects_fields _

/-- `update_frame` changes neither the availability flags nor the stored
detections. -/
theorem update_frame_fields (frameRes : Option Frame) (s : AppState) :
    (update_frame frameRes s).cameraAvail = s.cameraAvail ∧
    (update_frame frameRes s).detectorAvail = s.detectorAvail ∧
    (update_frame frameRes s).latest_detections = s.latest_detections := by
  unfold update_frame
  split
  · exact ⟨rfl, rfl, rfl⟩
  · split
    · exact ⟨rfl, rfl, rfl⟩
    · exact ⟨rfl, rfl, rfl⟩

/-- `availInv` holds in every reachable state. -/
theorem availInv_reachable (s : AppState) (h : Reachable s) : availInv s := by
  induction h with
  | init cam det arm => intro _; rfl
  | detect frameRes detRes s hs ih =>
    intro hav
    obtain ⟨hcam, hdet⟩ := detect_objects_flags frameRes detRes s
    have hx : s.cameraAvail = false ∨ s.detectorAvail = false := by
      rw [hcam, hdet] at hav
      exact hav
    rw [detect_objects_unavailable frameRes detRes s hx]
    exact ih hx
  | start s hs ih =>
    intro hav
    obtain ⟨hcam, hdet, hdets⟩ := start_sorting_fields s
    rw [hcam, hdet] at hav
    rw [hdets]
    exact ih hav
  | stop s hs ih =>
    intro hav
    obtain ⟨hcam, hdet, hdets⟩ := stop_sorting_fields s
    rw [hcam, hdet] at hav
    rw [hdets]
    exact ih hav
  | tick s hs ih =>
    intro hav
    obtain ⟨hcam, hdet, hdets⟩ := sort_objects_fields s
    rw [hcam, hdet] at hav
    rw [hdets]
    exact ih hav
  | frame frameRes s hs ih =>
    intro hav
    obtain ⟨hcam, hdet, hdets⟩ := update_frame_fields frameRes s
    rw [hcam, hdet] at hav
    rw [hdets]
    exact ih hav

/-- C8: in every reachable state in which the camera frame source or the
material detector is unavailable, the Idle→Sorting transition is rejected:
`start_sorting` reports a warning dialog, raises nothing, issues no arm
command, and leaves the state — in particular the run flag and the status —
completely unchanged.  (The code's guard is the empty-detection list;
`availInv_reachable` shows unavailability keeps that list empty, so the guard
always fires.) -/
theorem start_sorting_rejected_unavailable (s : AppState) (hreach : Reachable s)
    (hun : s.cameraAvail = false ∨ s.detectorAvail = false) :
    start_sorting s =
      { state := s, armTrace := [],
        warnings := ["No objects detected. Please click 'Detect' first."],
        raised := false } ∧
    (start_sorting s).state.running_sorting = s.running_sorting ∧
    (start_sorting s).state.status = s.status ∧
    (start_sorting s).warnings ≠ [] ∧
    (start_sorting s).raised = false := by
  have hdets : s.latest_detections = [] := availInv_reachable s hreach hun
  have heq : start_sorting s =
      { state := s, armTrace := [],
        warnings := ["No objects detected. Please click 'Detect' first."],
        raised := false } := by
    unfold start_sorting
    rw [if_pos (by rw [hdets]; rfl)]
  refine ⟨heq, ?_, ?_, ?_, ?_⟩ <;> simp [heq]

/-- Witness for `start_sorting_rejected_unavailable`: the freshly initialised
application with the camera unavailable. -/
theorem start_sorting_rejected_unavailable_witness :
    (initState false true true).cameraAvail = false ∧
    (start_sorting (initState false true true) =
      { state := initState false true true, armTrace := [],
        warnings := ["No objects detected. Please click 'Detect' first."],
        raised := false } ∧
     (start_sorting (initState false true true)).state.running_sorting =
       (initState false true true).running_sorting ∧
     (start_sorting (initState false true true)).state.status =
       (initState false true true).status ∧
     (start_sorting (initState false true true)).warnings ≠ [] ∧
     (start_sorting (initState false true true)).raised = false) :=
  ⟨rfl, start_sorting_rejected_unavailable (initState false true true)
    (Reachable.init false true true) (Or.inl rfl)⟩

/-- A concrete Sorting-state with no detections stored: the application just
after `start_sorting` flipped the run flag (the detection list can also
become empty one tick later, after `sort_objects` clears it at line 497). -/
def sortingEmptyState : AppState :=
  { initState true true true with
    running_sorting := true
    status := "Status: Sorting"
    start_button_enabled := false
    stop_button_enabled := true }

/-- C2 counterexample: in the Sorting state with zero detections, the tick
does not stay in Sorting — `sort_objects` calls `stop_sorting`, so afterwards
the run flag is cleared and the status reads Idle, contradicting the claim
that the Orchestrator is still in the Sorting state after that tick. -/
theorem sort_objects_zero_stops_counterexample :
    sortingEmptyState.running_sorting = true ∧
    sortingEmptyState.latest_detections = [] ∧
    (sort_objects sortingEmptyState).state.running_sorting = false ∧
    (sort_objects sortingEmptyState).state.status = "Status: Idle" ∧
    ¬ (sort_objects sortingEmptyState).state.status = "Status: Sorting" := by
  refine ⟨rfl, rfl, ?_, ?_, ?_⟩ <;>
    simp [sort_objects, sortingEmptyState, stop_sorting, initState]

/-- C2 amended: if the run state is Sorting and there are zero detections for
the current tick, the tick issues no actuation command and raises nothing,
sets the troubleshooting status to "No objects to sort", and stops sorting —
transitioning to Idle (run flag cleared, buttons reset, status
"Status: Idle") instead of remaining in Sorting; the following tick is then a
clean no-op (no actuation, no exception). -/
theorem sort_objects_zero_detections (s : AppState)
    (hrun : s.running_sorting = true) (hdets : s.latest_detections = []) :
    sort_objects s =
      { state := stop_sorting
          { s with troubleshoot := "Troubleshooting: No objects to sort" },
        armTrace := [], warnings := [], raised := false } ∧
    (sort_objects s).armTrace = [] ∧
    (sort_objects s).raised = false ∧
    (sort_objects s).state.running_sorting = false ∧
    (sort_objects s).state.status = "Status: Idle" ∧
    (sort_objects (sort_objects s).state).armTrace = [] ∧
    (sort_objects (sort_objects s).state).raised = false ∧
    (sort_objects (sort_objects s).state).state = (sort_objects s).state := by
  have heq : sort_objects s =
      { state := stop_sorting
          { s with troubleshoot := "Troubleshooting: No objects to sort" },
        armTrace := [], warnings := [], raised := false } := by
    unfold sort_objects
    rw [if_neg (by rw [hrun]; simp), if_pos (by rw [hdets]; rfl)]
  have hrun2 : (sort_objects s).state.running_sorting = false := by
    rw [heq]
    rfl
  have hnotrun : ∀ (t : AppState), t.running_sorting = false →
      sort_objects t = { state := t, armTrace := [], warnings := [], raised := false } := by
    intro t ht
    unfold sort_objects
    rw [if_pos ht]
  have hnext := hnotrun _ hrun2
  refine ⟨heq, by rw [heq], by rw [heq], hrun2, by rw [heq]; rfl,
    by rw [hnext], by rw [hnext], by rw [hnext]⟩

/-- Witness for `sort_objects_zero_detections`: the concrete Sorting state
with no detections. -/
theorem sort_objects_zero_detections_witness :
    sortingEmptyState.running_sorting = true ∧
    sortingEmptyState.latest_detections = [] ∧
    (sort_objects sortingEmptyState =
      { state := stop_sorting
          { sortingEmptyState with
            troubleshoot := "Troubleshooting: No objects to sort" },
        armTrace := [], warnings := [], raised := false } ∧
     (sort_objects sortingEmptyState).armTrace = [] ∧
     (sort_objects sortingEmptyState).raised = false ∧
     (sort_objects sortingEmptyState).state.running_sorting = false ∧
     (sort_objects sortingEmptyState).state.status = "Status: Idle" ∧
     (sort_objects (sort_objects sortingEmptyState).state).armTrace = [] ∧
     (sort_objects (sort_objects sortingEmptyState).state).raised = false ∧
     (sort_objects (sort_objects sortingEmptyState).state).state =
       (sort_objects sortingEmptyState).state) :=
  ⟨rfl, rfl, sort_objects_zero_detections sortingEmptyState rfl rfl⟩

end PlasticWasteSorting
